import Mathlib

/-!
Verification of the tweet sentiment-analysis application.

The development shallowly embeds the program's logic:
* the classification loop of `main.py` (thresholding VADER compound scores
  into positive / neutral / negative, counting, and per-category sorting);
* the metrics script `analytics.py` (confusion matrix, per-class recall via
  the sklearn classification report, per-class accuracy loop);
* the interactive runner `src/analyzer.py` (`SentimentAnalysisApp.
  run_scraper_and_analyze` and `display_results`), modelled as a state
  transformer over the window's fields, with the external scraper process
  and the polarity oracle abstracted as an environment.

Floating-point compound scores are modelled as rationals; where NaN
behaviour matters (the classifier's comparisons), a dedicated `FloatVal`
type with a NaN element and Python comparison semantics is used.
-/

/-- The three sentiment categories of the application
(`'positive' / 'neutral' / 'negative'` strings in the Python code). -/
inductive Sentiment
  | positive
  | neutral
  | negative
deriving DecidableEq, Repr

/-- A floating-point value as consumed by the classifier: either NaN or an
ordinary (here: rational) number.  Mirrors IEEE comparison semantics to the
extent the classifier uses them: every comparison involving NaN is false. -/
inductive FloatVal
  | nan
  | val (q : ℚ)
deriving DecidableEq, Repr

/-- Python `a > b` on floats: false whenever either side is NaN. -/
def FloatVal.gt : FloatVal → FloatVal → Bool
  | .val a, .val b => decide (b < a)
  | _, _ => false

/-- Python `a < b` on floats: false whenever either side is NaN. -/
def FloatVal.lt : FloatVal → FloatVal → Bool
  | .val a, .val b => decide (a < b)
  | _, _ => false

/-- The classification chain of `main.py` lines 57-62 (and identically
`analyzer.py` lines 182-187), on a rational compound score:
`if compound > 0.05: positive elif compound < -0.05: negative else: neutral`. -/
def classify (compound : ℚ) : Sentiment :=
  if compound > 5/100 then .positive
  else if compound < -(5/100) then .negative
  else .neutral

/-- The same classification chain evaluated with Python float comparison
semantics (NaN compares false on both branches). -/
def classifyF (compound : FloatVal) : Sentiment :=
  if compound.gt (.val (5/100)) then .positive
  else if compound.lt (.val (-(5/100))) then .negative
  else .neutral

/-- One processed tweet: the `(tweet, sentiment, compound)` tuple appended to
`tweet_sentiments`. -/
abbrev ScoredItem := String × Sentiment × ℚ

/-- The `sentiment_counts` dictionary `\x7b'positive': _, 'neutral': _,
'negative': _\x7d`.  Counts are naturals, hence non-negative by type. -/
structure Counts where
  positive : ℕ
  neutral : ℕ
  negative : ℕ
deriving DecidableEq, Repr

/-- The statement `sentiment_counts[sentiment] += 1`. -/
def Counts.incr (c : Counts) : Sentiment → Counts
  | .positive => { c with positive := c.positive + 1 }
  | .neutral => { c with neutral := c.neutral + 1 }
  | .negative => { c with negative := c.negative + 1 }

/-- Loop body of the batch pipeline (`main.py` lines 54-64): score one tweet
with the oracle, classify, bump the count, append the scored tuple. -/
def pipelineStep (oracle : String → ℚ) (acc : List ScoredItem × Counts)
    (tweet : String) : List ScoredItem × Counts :=
  let compound := oracle tweet
  let sentiment := classify compound
  (acc.1 ++ [(tweet, sentiment, compound)], acc.2.incr sentiment)

/-- The batch pipeline of `main.py` lines 52-64: starting from the empty
`tweet_sentiments` list and all-zero `sentiment_counts`, process every tweet
in order.  `oracle` stands for `sia.polarity_scores(tweet)['compound']`. -/
def runPipeline (oracle : String → ℚ) (tweets : List String) :
    List ScoredItem × Counts :=
  tweets.foldl (pipelineStep oracle) ([], ⟨0, 0, 0⟩)

/-- Filter predicate `ts[1] == 'positive'`. -/
def isPos (x : ScoredItem) : Bool := x.2.1 == Sentiment.positive

/-- Filter predicate `ts[1] == 'neutral'`. -/
def isNeu (x : ScoredItem) : Bool := x.2.1 == Sentiment.neutral

/-- Filter predicate `ts[1] == 'negative'`. -/
def isNeg (x : ScoredItem) : Bool := x.2.1 == Sentiment.negative

/-- `all_positive = sorted([ts for ts in tweet_sentiments if ts[1]=='positive'],
key=lambda x: x[2], reverse=True)` — a stable sort, descending by compound. -/
def allPositive (ts : List ScoredItem) : List ScoredItem :=
  (ts.filter isPos).mergeSort (fun a b => decide (b.2.2 ≤ a.2.2))

/-- `all_negative = sorted([... if ts[1]=='negative'], key=lambda x: x[2])` —
a stable sort, ascending by compound. -/
def allNegative (ts : List ScoredItem) : List ScoredItem :=
  (ts.filter isNeg).mergeSort (fun a b => decide (a.2.2 ≤ b.2.2))

/-- `all_neutral = sorted([... if ts[1]=='neutral'], key=lambda x: abs(x[2]))`
— a stable sort, ascending by absolute value of the compound. -/
def allNeutral (ts : List ScoredItem) : List ScoredItem :=
  (ts.filter isNeu).mergeSort (fun a b => decide (|a.2.2| ≤ |b.2.2|))

/-- The three label strings of `analytics.py`:
`labels = ['positivo', 'negativo', 'neutral']`. -/
inductive Label
  | positivo
  | negativo
  | neutral
deriving DecidableEq, Repr

/-- The code order of the labels, `labels = ['positivo', 'negativo',
'neutral']`, also passed to `classification_report` as `target_names`. -/
def labelNames : List Label := [.positivo, .negativo, .neutral]

/-- The confusion matrix `cm` of `analytics.py` lines 10-14. -/
def cm : List (List ℕ) := [[157, 26, 17], [28, 432, 40], [18, 33, 249]]

/-- The `y_true` list of `analytics.py` lines 17-21:
200 positivo, then 500 negativo, then 300 neutral. -/
def y_true : List Label :=
  List.replicate 200 .positivo ++ List.replicate 500 .negativo ++
    List.replicate 300 .neutral

/-- The `y_pred` list of `analytics.py` lines 23-27.  Note its per-block
counts (160/25/15, 30/430/40, 20/35/245) do not match the rows of `cm`. -/
def y_pred : List Label :=
  List.replicate 160 .positivo ++ List.replicate 25 .negativo ++
    List.replicate 15 .neutral ++
  List.replicate 30 .positivo ++ List.replicate 430 .negativo ++
    List.replicate 40 .neutral ++
  List.replicate 20 .positivo ++ List.replicate 35 .negativo ++
    List.replicate 245 .neutral

/-- The paired (true, predicted) labels. -/
def truePredPairs : List (Label × Label) := y_true.zip y_pred

/-- Recall of one class over `(y_true, y_pred)` as sklearn computes it:
true positives divided by support of the class. -/
def recallOfClass (l : Label) : ℚ :=
  (truePredPairs.countP (fun p => p.1 == l && p.2 == l) : ℚ) /
    (truePredPairs.countP (fun p => p.1 == l) : ℚ)

/-- Model of sklearn `classification_report` class ordering: when no
explicit `labels` argument is passed, classes are the sorted distinct label
values; lexicographically `'negativo' < 'neutral' < 'positivo'`. -/
def sortedClasses : List Label := [.negativo, .neutral, .positivo]

/-- Model of sklearn `classification_report` naming: `target_names` renames
the sorted classes positionally, so the report entry for a name refers to
the sorted class at that name's index in `target_names` (= `labels`). -/
def reportClassFor (name : Label) : Label :=
  sortedClasses.getD (labelNames.indexOf name) name

/-- The value `report[name]['recall']` read in `analytics.py` line 33. -/
def reportRecall (name : Label) : ℚ := recallOfClass (reportClassFor name)

/-- `recall_scores = [report[label]['recall'] for label in labels]`. -/
def recall_scores : List ℚ := labelNames.map reportRecall

/-- The value `report['accuracy']` read in `analytics.py` line 34: the
fraction of positions where `y_true` and `y_pred` agree. -/
def reportAccuracy : ℚ :=
  (truePredPairs.countP (fun p => p.1 == p.2) : ℚ) /
    (truePredPairs.length : ℚ)

/-- `total_samples = np.sum(cm)`. -/
def total_samples : ℕ := (cm.map (fun row => row.sum)).sum

/-- The matrix entry `cm[i][j]`. -/
def cmAt (i j : ℕ) : ℕ := (cm.getD i []).getD j 0

/-- The row sum `sum(cm[i, :])`. -/
def rowSum (i : ℕ) : ℕ := (cm.getD i []).sum

/-- The column sum `sum(cm[:, j])`. -/
def colSum (j : ℕ) : ℕ := (cm.map (fun row => row.getD j 0)).sum

/-- The per-class accuracy loop of `analytics.py` lines 37-46:
for each class, `TP = cm[i][i]`, `FP = sum(cm[:, i]) - TP`,
`FN = sum(cm[i, :]) - TP`, `TN = total - (TP + FP + FN)`,
`acc = (TP + TN) / total`. -/
def accuracies : List ℚ :=
  (List.range labelNames.length).map (fun i =>
    let TP := cmAt i i
    let FP := colSum i - TP
    let FN := rowSum i - TP
    let TN := total_samples - (TP + FP + FN)
    ((TP + TN : ℕ) : ℚ) / (total_samples : ℚ))

/-- Predicate for the characters removed by Python `str.strip()` (the
common whitespace characters suffice for this model). -/
def isPySpace (c : Char) : Bool :=
  c == ' ' || c == '\t' || c == '\n' || c == '\r'

/-- Model of Python `str.strip()`: drop leading and trailing whitespace. -/
def pyStrip (s : String) : String :=
  String.mk (((s.data.dropWhile isPySpace).reverse.dropWhile
    isPySpace).reverse)

/-- Two-decimal rendering of a score, modelling the Python format `:.2f`
(no claim depends on the exact rounding mode of the last digit). -/
def formatScore (c : ℚ) : String :=
  let n : ℤ := round (c * 100)
  let sign := if n < 0 then "-" else ""
  let m := n.natAbs
  sign ++ toString (m / 100) ++ "." ++
    (if m % 100 < 10 then "0" else "") ++ toString (m % 100)

/-- One item paragraph of a panel in `display_results` (`analyzer.py`):
`f"<p><b>Score: ..:.2f</b><br>..tweet..</p>"`. -/
def fmtItem (it : ScoredItem) : String :=
  "<p><b>Score: " ++ formatScore it.2.2 ++ "</b><br>" ++ it.1 ++ "</p>"

/-- The positive panel HTML set by `display_results` (line 217). -/
def positiveHtmlOf (items : List ScoredItem) : String :=
  "<h3 style=\x27color:lime\x27>Tweets Positivos</h3>" ++
    String.join (items.map fmtItem)

/-- The neutral panel HTML set by `display_results` (lines 220-222).  The
Python expression is `header + "".join(..) or fallback`: `+` binds tighter
than `or`, so the left operand is returned whenever it is a non-empty
string and the fallback is returned only when the whole concatenation is
empty. -/
def neutralHtmlOf (items : List ScoredItem) : String :=
  let rendered := "<h3 style=\x27color:lightgray\x27>Tweets Neutrales</h3>" ++
    String.join (items.map fmtItem)
  if rendered = "" then "<p>No se encontraron tweets neutrales.</p>"
  else rendered

/-- The negative panel HTML set by `display_results` (line 223). -/
def negativeHtmlOf (items : List ScoredItem) : String :=
  "<h3 style=\x27color:salmon\x27>Tweets Negativos</h3>" ++
    String.join (items.map fmtItem)

/-- One item paragraph of a `main.py` panel with the given font color:
`f"<p><b><font color=..>Score: ..:.2f</font></b><br>..tweet..</p>"`. -/
def fmtItemMain (color : String) (it : ScoredItem) : String :=
  "<p><b><font color=\x27" ++ color ++ "\x27>Score: " ++ formatScore it.2.2 ++
    "</font></b><br>" ++ it.1 ++ "</p>"

/-- The positive panel of `main.py` (lines 95-99): header plus one
paragraph per item, with no empty-state branch. -/
def posTextMain (items : List ScoredItem) : String :=
  "<h2>Tweets Positivos</h2>" ++ String.join (items.map (fmtItemMain "green"))

/-- The neutral panel of `main.py` (lines 104-110): `if all_neutral:` append
the item paragraphs, `else:` append the empty-state message. -/
def neuTextMain (items : List ScoredItem) : String :=
  if !items.isEmpty then
    "<h2>Tweets Neutrales</h2>" ++ String.join (items.map (fmtItemMain "gray"))
  else
    "<h2>Tweets Neutrales</h2>" ++ "<p>No se encontraron tweets neutrales.</p>"

/-- The negative panel of `main.py` (lines 115-119): header plus one
paragraph per item, with no empty-state branch. -/
def negTextMain (items : List ScoredItem) : String :=
  "<h2>Tweets Negativos</h2>" ++ String.join (items.map (fmtItemMain "red"))

/-- The ready label of the trigger button (`analyzer.py` lines 123, 201). -/
def readyLabel : String := "🔎 Buscar y Analizar"

/-- The `SentimentAnalysisApp` window fields touched by
`run_scraper_and_analyze` and `display_results`: the stored run results,
the rendered chart and panels, and the trigger button's state. -/
structure AppState where
  tweet_sentiments : List ScoredItem
  sentiment_counts : Counts
  chartCounts : Counts
  positiveHtml : String
  neutralHtml : String
  negativeHtml : String
  searchEnabled : Bool
  searchLabel : String
deriving DecidableEq, Repr

/-- The window state right after `__init__` (`analyzer.py` lines 105-125):
no results, zero counts, empty panels, enabled button with ready label. -/
def initState : AppState where
  tweet_sentiments := []
  sentiment_counts := ⟨0, 0, 0⟩
  chartCounts := ⟨0, 0, 0⟩
  positiveHtml := ""
  neutralHtml := ""
  negativeHtml := ""
  searchEnabled := true
  searchLabel := readyLabel

/-- `display_results` (`analyzer.py` lines 203-225): rank the three category
lists, redraw the bar chart from `sentiment_counts`, set the three panels. -/
def displayResults (st : AppState) : AppState :=
  { st with
    chartCounts := st.sentiment_counts
    positiveHtml := positiveHtmlOf (allPositive st.tweet_sentiments)
    neutralHtml := neutralHtmlOf (allNeutral st.tweet_sentiments)
    negativeHtml := negativeHtmlOf (allNegative st.tweet_sentiments) }

/-- Outcome of the external acquisition step of a run: the scraper process
exits non-zero (`subprocess.CalledProcessError`), `tweets.json` is missing
(`FileNotFoundError`), some other exception is raised before the scoring
loop (e.g. a JSON parse failure), or a list of tweets is obtained. -/
inductive RunOutcome
  | procFail
  | fileMissing
  | otherError (msg : String)
  | ok (tweets : List String)

/-- Environment of one triggered run: the acquisition outcome and the
polarity oracle, which may raise (`.error msg`) on an item. -/
structure RunEnv where
  outcome : RunOutcome
  oracle : String → Except String ℚ

/-- The scoring loop of `run_scraper_and_analyze` (lines 179-189) with a
fallible oracle: returns the items appended and the counts reached, plus
the exception message if the oracle raised; the loop stops at the first
failure, leaving the partial appends and counts in place. -/
def scoreLoop (oracle : String → Except String ℚ) :
    List String → List ScoredItem → Counts →
    List ScoredItem × Counts × Option String
  | [], acc, counts => (acc, counts, none)
  | tweet :: rest, acc, counts =>
    match oracle tweet with
    | .error msg => (acc, counts, some msg)
    | .ok compound =>
      let sentiment := classify compound
      scoreLoop oracle rest (acc ++ [(tweet, sentiment, compound)])
        (counts.incr sentiment)

/-- `run_scraper_and_analyze` (`analyzer.py` lines 152-201) as a state
transformer: validate the stripped search term, disable and relabel the
button, run acquisition and the scoring loop, display on success, map each
exception class to its message box, and in the `finally` block re-enable
the button and restore its label.  The result pairs the new window state
with the message box shown (title, text), if any.  The depth field only
feeds the scraper's command line, which is abstracted into the outcome. -/
def runScraperAndAnalyze (env : RunEnv) (searchText : String)
    (st : AppState) : AppState × Option (String × String) :=
  let term := pyStrip searchText
  if term = "" then
    (st, some ("Error", "Por favor ingresa un término de búsqueda."))
  else
    let st1 := { st with searchEnabled := false, searchLabel := "Buscando..." }
    let result :=
      match env.outcome with
      | .procFail =>
        (st1, some ("Error", "Error al ejecutar el scraper de Nitter."))
      | .fileMissing =>
        (st1, some ("Error", "No se encontró el archivo tweets.json."))
      | .otherError msg => (st1, some ("Error inesperado", msg))
      | .ok tweets =>
        let r := scoreLoop env.oracle tweets [] ⟨0, 0, 0⟩
        let st2 :=
          { st1 with tweet_sentiments := r.1, sentiment_counts := r.2.1 }
        match r.2.2 with
        | none => (displayResults st2, none)
        | some msg => (st2, some ("Error inesperado", msg))
    ({ result.1 with searchEnabled := true, searchLabel := readyLabel },
      result.2)

/-- C1: the Classifier returns Positive iff the compound compares greater
than 0.05, Negative iff it compares less than -0.05, and Neutral otherwise;
both boundary values and NaN are Neutral. -/
theorem c1_classifier_thresholds :
    (∀ c : FloatVal,
      (classifyF c = .positive ↔ c.gt (.val (5/100)) = true) ∧
      (classifyF c = .negative ↔ c.lt (.val (-(5/100))) = true) ∧
      (classifyF c = .neutral ↔
        (c.gt (.val (5/100)) = false ∧ c.lt (.val (-(5/100))) = false))) ∧
    classifyF (.val (5/100)) = .neutral ∧
    classifyF (.val (-(5/100))) = .neutral ∧
    classifyF .nan = .neutral := by
  refine ⟨fun c => ?_, by norm_num [classifyF, FloatVal.gt, FloatVal.lt],
    by norm_num [classifyF, FloatVal.gt, FloatVal.lt], rfl⟩
  rcases c with _ | q
  · simp [classifyF, FloatVal.gt, FloatVal.lt]
  · simp only [classifyF, FloatVal.gt, FloatVal.lt]
    by_cases h1 : (5/100 : ℚ) < q
    · have h2 : ¬ q < -(5/100) := by linarith
      simp [h1, h2]
    · by_cases h2 : q < -(5/100)
      · simp [h1, h2]
      · simp [h1, h2]

/-- Membership in the ranked positive list is membership in the input with a
positive tag. -/
theorem mem_allPositive {x : ScoredItem} {ts : List ScoredItem} :
    x ∈ allPositive ts ↔ x ∈ ts ∧ x.2.1 = Sentiment.positive := by
  simp [allPositive, List.mem_mergeSort, List.mem_filter, isPos, beq_iff_eq]

/-- Membership in the ranked negative list is membership in the input with a
negative tag. -/
theorem mem_allNegative {x : ScoredItem} {ts : List ScoredItem} :
    x ∈ allNegative ts ↔ x ∈ ts ∧ x.2.1 = Sentiment.negative := by
  simp [allNegative, List.mem_mergeSort, List.mem_filter, isNeg, beq_iff_eq]

/-- Membership in the ranked neutral list is membership in the input with a
neutral tag. -/
theorem mem_allNeutral {x : ScoredItem} {ts : List ScoredItem} :
    x ∈ allNeutral ts ↔ x ∈ ts ∧ x.2.1 = Sentiment.neutral := by
  simp [allNeutral, List.mem_mergeSort, List.mem_filter, isNeu, beq_iff_eq]

/-- The three category filters split the length of any scored-item list. -/
theorem filter_three_length (ts : List ScoredItem) :
    (ts.filter isPos).length + (ts.filter isNeu).length +
      (ts.filter isNeg).length = ts.length := by
  induction ts with
  | nil => rfl
  | cons x xs ih =>
    rcases x with ⟨t, s, c⟩
    cases s <;> simp [List.filter_cons, isPos, isNeu, isNeg] <;> omega

/-- C2: the Ranker sorts positives descending by compound, negatives
ascending by compound, neutrals ascending by absolute compound, and each
ranked list is a permutation of the corresponding filtered input (so ties
may keep any order, in particular input order). -/
theorem c2_ranker_orders (ts : List ScoredItem) :
    (allPositive ts).Pairwise (fun a b => b.2.2 ≤ a.2.2) ∧
    (allNegative ts).Pairwise (fun a b => a.2.2 ≤ b.2.2) ∧
    (allNeutral ts).Pairwise (fun a b => |a.2.2| ≤ |b.2.2|) ∧
    (allPositive ts).Perm (ts.filter isPos) ∧
    (allNegative ts).Perm (ts.filter isNeg) ∧
    (allNeutral ts).Perm (ts.filter isNeu) := by
  refine ⟨?_, ?_, ?_, List.mergeSort_perm _ _, List.mergeSort_perm _ _,
    List.mergeSort_perm _ _⟩
  · exact (List.sorted_mergeSort
      (fun a b c hab hbc => by
        simp only [decide_eq_true_eq] at *; exact le_trans hbc hab)
      (fun a b => by
        simp only [Bool.or_eq_true, decide_eq_true_eq]
        exact le_total b.2.2 a.2.2)
      (ts.filter isPos)).imp (fun h => of_decide_eq_true h)
  · exact (List.sorted_mergeSort
      (fun a b c hab hbc => by
        simp only [decide_eq_true_eq] at *; exact le_trans hab hbc)
      (fun a b => by
        simp only [Bool.or_eq_true, decide_eq_true_eq]
        exact le_total a.2.2 b.2.2)
      (ts.filter isNeg)).imp (fun h => of_decide_eq_true h)
  · exact (List.sorted_mergeSort
      (fun a b c hab hbc => by
        simp only [decide_eq_true_eq] at *; exact le_trans hab hbc)
      (fun a b => by
        simp only [Bool.or_eq_true, decide_eq_true_eq]
        exact le_total |a.2.2| |b.2.2|)
      (ts.filter isNeu)).imp (fun h => of_decide_eq_true h)

/-- C3: the three ranked sequences are pairwise disjoint, their lengths sum
to the input length, and every input item lands in exactly one of them. -/
theorem c3_partition (ts : List ScoredItem) :
    ((allPositive ts).length + (allNeutral ts).length +
      (allNegative ts).length = ts.length) ∧
    (∀ x : ScoredItem, ¬(x ∈ allPositive ts ∧ x ∈ allNegative ts)) ∧
    (∀ x : ScoredItem, ¬(x ∈ allPositive ts ∧ x ∈ allNeutral ts)) ∧
    (∀ x : ScoredItem, ¬(x ∈ allNegative ts ∧ x ∈ allNeutral ts)) ∧
    (∀ x ∈ ts,
      (x ∈ allPositive ts ∧ x ∉ allNeutral ts ∧ x ∉ allNegative ts) ∨
      (x ∉ allPositive ts ∧ x ∈ allNeutral ts ∧ x ∉ allNegative ts) ∨
      (x ∉ allPositive ts ∧ x ∉ allNeutral ts ∧ x ∈ allNegative ts)) := by
  refine ⟨?_, ?_, ?_, ?_, ?_⟩
  · rw [allPositive, allNeutral, allNegative, List.length_mergeSort,
      List.length_mergeSort, List.length_mergeSort]
    exact filter_three_length ts
  · rintro x ⟨hp, hn⟩
    rw [mem_allPositive] at hp
    rw [mem_allNegative] at hn
    rw [hp.2] at hn
    exact Sentiment.noConfusion hn.2
  · rintro x ⟨hp, hn⟩
    rw [mem_allPositive] at hp
    rw [mem_allNeutral] at hn
    rw [hp.2] at hn
    exact Sentiment.noConfusion hn.2
  · rintro x ⟨hp, hn⟩
    rw [mem_allNegative] at hp
    rw [mem_allNeutral] at hn
    rw [hp.2] at hn
    exact Sentiment.noConfusion hn.2
  · intro x hx
    rcases h : x.2.1 with _ | _ | _
    · exact Or.inl ⟨mem_allPositive.mpr ⟨hx, h⟩,
        fun hc => Sentiment.noConfusion (h ▸ (mem_allNeutral.mp hc).2),
        fun hc => Sentiment.noConfusion (h ▸ (mem_allNegative.mp hc).2)⟩
    · exact Or.inr (Or.inl ⟨fun hc =>
        Sentiment.noConfusion (h ▸ (mem_allPositive.mp hc).2),
        mem_allNeutral.mpr ⟨hx, h⟩,
        fun hc => Sentiment.noConfusion (h ▸ (mem_allNegative.mp hc).2)⟩)
    · exact Or.inr (Or.inr ⟨fun hc =>
        Sentiment.noConfusion (h ▸ (mem_allPositive.mp hc).2),
        fun hc => Sentiment.noConfusion (h ▸ (mem_allNeutral.mp hc).2),
        mem_allNegative.mpr ⟨hx, h⟩⟩)

/-- Folding the pipeline step adds one to the total count per tweet,
whatever the accumulator. -/
theorem pipeline_counts_sum (oracle : String → ℚ) (tweets : List String)
    (acc : List ScoredItem × Counts) :
    (tweets.foldl (pipelineStep oracle) acc).2.positive +
      (tweets.foldl (pipelineStep oracle) acc).2.neutral +
      (tweets.foldl (pipelineStep oracle) acc).2.negative =
    acc.2.positive + acc.2.neutral + acc.2.negative + tweets.length := by
  induction tweets generalizing acc with
  | nil => simp
  | cons t ts ih =>
    rw [List.foldl_cons, ih]
    rcases acc with ⟨items, cnts⟩
    simp only [pipelineStep]
    cases h : classify (oracle t) <;> simp [Counts.incr] <;> omega

/-- C4: the category counts of the batch pipeline sum to the number of input
items (each count is a natural number, hence non-negative by type), and the
empty batch yields the empty list and all-zero counts. -/
theorem c4_counts_sum (oracle : String → ℚ) (tweets : List String) :
    ((runPipeline oracle tweets).2.positive +
      (runPipeline oracle tweets).2.neutral +
      (runPipeline oracle tweets).2.negative = tweets.length) ∧
    runPipeline oracle [] = ([], ⟨0, 0, 0⟩) := by
  constructor
  · simpa [runPipeline] using pipeline_counts_sum oracle tweets ([], ⟨0, 0, 0⟩)
  · rfl

set_option maxRecDepth 40000 in
/-- C5: the metrics actually reported by `analytics.py` disagree with the
confusion matrix `cm` it displays.  Because `y_pred` encodes the block
counts 160/430/245 (not 157/432/249) and `classification_report` orders
classes alphabetically while `target_names` renames them positionally, the
reported recall under the key `positivo` is the recall of the class
`negativo`, 430/500 = 0.86, and the reported global accuracy is
835/1000 = 0.835; neither equals the claimed 157/200 = 0.785 or
838/1000 = 0.838.  Even the true recall of class `positivo` on the
generated data is 160/200 = 0.8, not 157/200. -/
theorem c5_reported_metrics :
    reportRecall Label.positivo = 43/50 ∧
    reportAccuracy = 167/200 ∧
    recallOfClass Label.positivo = 4/5 ∧
    reportRecall Label.positivo ≠ 157/200 ∧
    reportAccuracy ≠ 419/500 := by
  have hclass : reportClassFor Label.positivo = Label.negativo := rfl
  have hTPn : truePredPairs.countP
      (fun p => p.1 == Label.negativo && p.2 == Label.negativo) = 430 := by
    decide
  have hSn : truePredPairs.countP (fun p => p.1 == Label.negativo) = 500 := by
    decide
  have hTPp : truePredPairs.countP
      (fun p => p.1 == Label.positivo && p.2 == Label.positivo) = 160 := by
    decide
  have hSp : truePredPairs.countP (fun p => p.1 == Label.positivo) = 200 := by
    decide
  have hAgree : truePredPairs.countP (fun p => p.1 == p.2) = 835 := by decide
  have hLen : truePredPairs.length = 1000 := by decide
  have h1 : reportRecall Label.positivo = 43/50 := by
    rw [reportRecall, hclass, recallOfClass, hTPn, hSn]; norm_num
  have h2 : reportAccuracy = 167/200 := by
    rw [reportAccuracy, hAgree, hLen]; norm_num
  have h3 : recallOfClass Label.positivo = 4/5 := by
    rw [recallOfClass, hTPp, hSp]; norm_num
  refine ⟨h1, h2, h3, ?_, ?_⟩
  · rw [h1]; norm_num
  · rw [h2]; norm_num

/-- C6: each entry of the per-class accuracy list equals `(TP + TN) / total`
with `TP`, `FP`, `FN`, `TN` derived from the fixed confusion matrix as the
spec states; the three values are 911/1000, 873/1000 and 892/1000, and the
total sample count 1000 is positive. -/
theorem c6_perclass_accuracy :
    (∀ i : Fin 3,
      accuracies.getD i.1 0 =
        (let TP := cmAt i.1 i.1
         let FP := colSum i.1 - TP
         let FN := rowSum i.1 - TP
         let TN := total_samples - (TP + FP + FN)
         ((TP + TN : ℕ) : ℚ) / (total_samples : ℚ))) ∧
    accuracies = [911/1000, 873/1000, 892/1000] ∧
    0 < total_samples := by
  have hrange : List.range labelNames.length = [0, 1, 2] := by decide
  have h0 : cmAt 0 0 = 157 := by decide
  have h1 : cmAt 1 1 = 432 := by decide
  have h2 : cmAt 2 2 = 249 := by decide
  have hc0 : colSum 0 = 203 := by decide
  have hc1 : colSum 1 = 491 := by decide
  have hc2 : colSum 2 = 306 := by decide
  have hr0 : rowSum 0 = 200 := by decide
  have hr1 : rowSum 1 = 500 := by decide
  have hr2 : rowSum 2 = 300 := by decide
  have ht : total_samples = 1000 := by decide
  have hacc : accuracies = [911/1000, 873/1000, 892/1000] := by
    rw [accuracies, hrange]
    simp only [List.map_cons, List.map_nil, h0, h1, h2, hc0, hc1, hc2,
      hr0, hr1, hr2, ht]
    norm_num
  refine ⟨fun i => ?_, hacc, by rw [ht]; norm_num⟩
  fin_cases i <;>
    simp only [hacc, h0, h1, h2, hc0, hc1, hc2, hr0, hr1, hr2, ht,
      List.getD_cons_zero, List.getD_cons_succ] <;>
    norm_num

/-- C7: when acquisition fails — scraper process non-zero exit, or missing
`tweets.json` — the stored `tweet_sentiments` and `sentiment_counts` and
every displayed surface are unchanged (only the button is restored), and
the user sees a notification whose text distinguishes the two cases. -/
theorem c7_acquisition_failure_preserves_state
    (oracle : String → Except String ℚ) (searchText : String) (st : AppState)
    (hterm : pyStrip searchText ≠ "") :
    (runScraperAndAnalyze ⟨.procFail, oracle⟩ searchText st =
      ({ st with searchEnabled := true, searchLabel := readyLabel },
        some ("Error", "Error al ejecutar el scraper de Nitter."))) ∧
    (runScraperAndAnalyze ⟨.fileMissing, oracle⟩ searchText st =
      ({ st with searchEnabled := true, searchLabel := readyLabel },
        some ("Error", "No se encontró el archivo tweets.json."))) ∧
    ("Error al ejecutar el scraper de Nitter." : String) ≠
      "No se encontró el archivo tweets.json." := by
  refine ⟨?_, ?_, by decide⟩ <;>
    · simp only [runScraperAndAnalyze]
      rw [if_neg hterm]

/-- Witness for C7: a concrete run over the freshly initialised window. -/
theorem c7_acquisition_failure_preserves_state_witness :
    pyStrip "btc" ≠ "" ∧
    runScraperAndAnalyze ⟨.procFail, fun _ => .ok 0⟩ "btc" initState =
      ({ initState with searchEnabled := true, searchLabel := readyLabel },
        some ("Error", "Error al ejecutar el scraper de Nitter.")) :=
  ⟨by decide,
    (c7_acquisition_failure_preserves_state (fun _ => .ok 0) "btc" initState
      (by decide)).1⟩

/-- C8: for every acquisition outcome and oracle behaviour, a validated run
ends with the trigger button re-enabled and its ready label restored. -/
theorem c8_trigger_always_reenabled (env : RunEnv) (searchText : String)
    (st : AppState) (hterm : pyStrip searchText ≠ "") :
    (runScraperAndAnalyze env searchText st).1.searchEnabled = true ∧
    (runScraperAndAnalyze env searchText st).1.searchLabel = readyLabel := by
  simp only [runScraperAndAnalyze]
  rw [if_neg hterm]
  rcases env with ⟨outcome, oracle⟩
  cases outcome with
  | procFail => exact ⟨rfl, rfl⟩
  | fileMissing => exact ⟨rfl, rfl⟩
  | otherError msg => exact ⟨rfl, rfl⟩
  | ok tweets =>
    cases h : (scoreLoop oracle tweets [] ⟨0, 0, 0⟩).2.2 <;>
      simp [h]

/-- Witness for C8: a concrete successful run over the initial window. -/
theorem c8_trigger_always_reenabled_witness :
    pyStrip "eth" ≠ "" ∧
    (runScraperAndAnalyze ⟨.ok ["good day"], fun _ => .ok (7/10)⟩ "eth"
      initState).1.searchEnabled = true ∧
    (runScraperAndAnalyze ⟨.ok ["good day"], fun _ => .ok (7/10)⟩ "eth"
      initState).1.searchLabel = readyLabel :=
  ⟨by decide,
    c8_trigger_always_reenabled ⟨.ok ["good day"], fun _ => .ok (7/10)⟩
      "eth" initState (by decide)⟩

/-- Splitting the scoring loop at the first failing item: the items before
it are all processed and the loop stops there with the partial state. -/
theorem scoreLoop_first_failure (oracle : String → Except String ℚ)
    (pre : List String) (t : String) (post : List String) (msg : String)
    (hpre : ∀ p ∈ pre, ∃ c, oracle p = .ok c)
    (ht : oracle t = .error msg) :
    ∀ (acc : List ScoredItem) (counts : Counts),
      scoreLoop oracle (pre ++ t :: post) acc counts =
        ((scoreLoop oracle pre acc counts).1,
          (scoreLoop oracle pre acc counts).2.1, some msg) := by
  induction pre with
  | nil =>
    intro acc counts
    simp [scoreLoop, ht]
  | cons p ps ih =>
    intro acc counts
    obtain ⟨c, hc⟩ := hpre p (List.mem_cons_self p ps)
    have hps : ∀ q ∈ ps, ∃ c, oracle q = .ok c :=
      fun q hq => hpre q (List.mem_cons_of_mem p hq)
    simp only [List.cons_append, scoreLoop, hc]
    exact ih hps _ _

/-- A loop over items the oracle accepts processes all of them. -/
theorem scoreLoop_all_ok_length (oracle : String → Except String ℚ)
    (pre : List String) (hpre : ∀ p ∈ pre, ∃ c, oracle p = .ok c) :
    ∀ (acc : List ScoredItem) (counts : Counts),
      (scoreLoop oracle pre acc counts).1.length = acc.length + pre.length := by
  induction pre with
  | nil =>
    intro acc counts
    simp [scoreLoop]
  | cons p ps ih =>
    intro acc counts
    obtain ⟨c, hc⟩ := hpre p (List.mem_cons_self p ps)
    have hps : ∀ q ∈ ps, ∃ c, oracle q = .ok c :=
      fun q hq => hpre q (List.mem_cons_of_mem p hq)
    simp only [scoreLoop, hc]
    rw [ih hps]
    simp
    omega

/-- C10: if the oracle raises on an item after acquisition succeeded, the
run ends with the generic error box, the displayed surfaces are untouched
(`display_results` is not reached) and the button is restored, but the
in-memory `tweet_sentiments` and `sentiment_counts` already hold exactly
the items processed before the failing one — no rollback happens. -/
theorem c10_oracle_failure_partial_state (env : RunEnv)
    (searchText : String) (st : AppState) (pre post : List String)
    (t msg : String) (hterm : pyStrip searchText ≠ "")
    (hout : env.outcome = .ok (pre ++ t :: post))
    (hpre : ∀ p ∈ pre, ∃ c, env.oracle p = .ok c)
    (ht : env.oracle t = .error msg) :
    runScraperAndAnalyze env searchText st =
      ({ st with
          tweet_sentiments := (scoreLoop env.oracle pre [] ⟨0, 0, 0⟩).1
          sentiment_counts := (scoreLoop env.oracle pre [] ⟨0, 0, 0⟩).2.1
          searchEnabled := true
          searchLabel := readyLabel },
        some ("Error inesperado", msg)) ∧
    (scoreLoop env.oracle pre [] ⟨0, 0, 0⟩).1.length = pre.length := by
  rcases env with ⟨outcome, oracle⟩
  simp only at hout hpre ht
  subst hout
  constructor
  · simp only [runScraperAndAnalyze]
    rw [if_neg hterm]
    rw [scoreLoop_first_failure oracle pre t post msg hpre ht]
  · simpa using scoreLoop_all_ok_length oracle pre hpre [] ⟨0, 0, 0⟩

/-- Witness for C10: the second of three tweets makes the oracle raise; the
first tweet's item stays in memory, the display fields keep their previous
(initial) contents, and the generic error box is shown. -/
theorem c10_oracle_failure_partial_state_witness :
    pyStrip "doge" ≠ "" ∧
    runScraperAndAnalyze
      ⟨.ok ["good", "bad", "more"],
        fun s => if s = "bad" then .error "boom" else .ok (9/10)⟩
      "doge" initState =
      ({ initState with
          tweet_sentiments := [("good", Sentiment.positive, 9/10)]
          sentiment_counts := ⟨1, 0, 0⟩
          searchEnabled := true
          searchLabel := readyLabel },
        some ("Error inesperado", "boom")) := by
  have horacle : ∀ p ∈ ["good"],
      ∃ c, (fun s => if s = "bad" then .error "boom" else .ok (9/10) :
        String → Except String ℚ) p = .ok c := by
    intro p hp
    rw [List.mem_singleton] at hp
    subst hp
    exact ⟨9/10, by simp⟩
  have h := (c10_oracle_failure_partial_state
    ⟨.ok (["good"] ++ "bad" :: ["more"]),
      fun s => if s = "bad" then .error "boom" else .ok (9/10)⟩
    "doge" initState ["good"] ["more"] "bad" "boom"
    (by decide) rfl horacle (by simp)).1
  refine ⟨by decide, ?_⟩
  rw [show (["good", "bad", "more"] : List String) =
    ["good"] ++ "bad" :: ["more"] from rfl]
  rw [h]
  have hloop : scoreLoop
      (fun s => if s = "bad" then .error "boom" else .ok (9/10))
      ["good"] [] ⟨0, 0, 0⟩ =
      ([("good", Sentiment.positive, 9/10)], ⟨1, 0, 0⟩, none) := by
    simp only [scoreLoop]
    rw [if_neg (by decide : ¬("good" : String) = "bad")]
    simp only [scoreLoop]
    norm_num [classify, Counts.incr]
  rw [hloop]

/-- C9: for an empty neutral list, `main.py` shows the dedicated empty-state
paragraph in the neutral panel while its positive and negative panels get
only their headers; in `display_results` of `analyzer.py`, however, the
fallback text is unreachable — the header concatenation is always a
non-empty string, so Python's `or` returns it and an empty neutral list
yields just the header, never the message. -/
theorem c9_neutral_empty_state :
    neuTextMain [] =
      "<h2>Tweets Neutrales</h2><p>No se encontraron tweets neutrales.</p>" ∧
    posTextMain [] = "<h2>Tweets Positivos</h2>" ∧
    negTextMain [] = "<h2>Tweets Negativos</h2>" ∧
    neutralHtmlOf [] = "<h3 style=\x27color:lightgray\x27>Tweets Neutrales</h3>" ∧
    positiveHtmlOf [] = "<h3 style=\x27color:lime\x27>Tweets Positivos</h3>" ∧
    negativeHtmlOf [] = "<h3 style=\x27color:salmon\x27>Tweets Negativos</h3>" ∧
    (∀ items : List ScoredItem,
      neutralHtmlOf items =
        "<h3 style=\x27color:lightgray\x27>Tweets Neutrales</h3>" ++
          String.join (items.map fmtItem)) := by
  have hne : ∀ items : List ScoredItem,
      ("<h3 style=\x27color:lightgray\x27>Tweets Neutrales</h3>" ++
        String.join (items.map fmtItem)) ≠ "" := by
    intro items h
    have hlen := congrArg String.length h
    rw [String.length_append] at hlen
    have hz : ("" : String).length = 0 := rfl
    rw [hz] at hlen
    have ha :
        0 < ("<h3 style=\x27color:lightgray\x27>Tweets Neutrales</h3>").length :=
      by decide
    omega
  have hdead : ∀ items : List ScoredItem,
      neutralHtmlOf items =
        "<h3 style=\x27color:lightgray\x27>Tweets Neutrales</h3>" ++
          String.join (items.map fmtItem) := by
    intro items
    simp only [neutralHtmlOf]
    rw [if_neg (hne items)]
  refine ⟨by decide, by decide, by decide, ?_, by decide, by decide, hdead⟩
  rw [hdead []]
  decide
